import Mathlib

/-!
Shallow embedding of the HURDAT2 parsing notebook (`parse_hurdat.ipynb`).

The notebook's code is pure Python over strings and pandas columns; this file
translates its functions into executable Lean definitions:

* Python string slicing `line[a:b]` becomes `pySlice`, and `str.strip()`
  becomes `pyStrip` (both operate on the code-point list `String.data`,
  matching Python's code-point indexing).
* Python `int(...)` and `float(...)` become `parseIntPy` and `parseFloatPy`,
  returning `Option` (where `none` models the `ValueError` the builtins raise).
  `parseFloatPy` covers the sign/digits/decimal-point fragment of the float
  grammar, which is the fragment realized in the dataset fields; values are
  represented exactly as rationals, since parsing a decimal literal and
  negating are exact in both representations.
* Exceptions escaping `parse_hurdat2` are modeled with `Except`:
  `ValueError` from `int(header['Entries'])` is `ParseError.invalidEntries`,
  `ValueError` from `float` inside `convert_lat_lon` is
  `ParseError.invalidFloat`, and `IndexError` from `lines[i]` when the
  declared run of data lines overruns the end of input is
  `ParseError.truncatedStorm`.
* The notebook's later normalization cells (type casts, `pd.to_numeric` with
  `errors='coerce'`, datetime composition, `UniqueID`) become
  `normalizeRecord` / `normalizeAll`, with `pd.to_numeric`'s coercion to NaN
  modeled as `Option` (`none` = missing).
-/

namespace Hurdat

/-- Python `s[a:b]` on a string: the code points from index `a` (inclusive) to
`b` (exclusive), clamped to the string's length; out-of-range slices yield the
empty string, never an error. -/
def pySlice (s : String) (a b : Nat) : String :=
  String.mk ((s.data.drop a).take (b - a))

/-- Python `str.strip()` with no argument: remove leading and trailing
whitespace. (Python also strips `\x0b`/`\x0c` and Unicode spaces;
only ASCII space and newline occur in this dataset's lines.) -/
def pyStrip (s : String) : String :=
  String.mk (((s.data.dropWhile Char.isWhitespace).reverse.dropWhile
    Char.isWhitespace).reverse)

/-- Python `s.startswith(p)`. -/
def pyStartsWith (s p : String) : Bool :=
  s.data.take p.data.length == p.data

/-- Numeric value of a digit list (most significant first). -/
def digitsVal (cs : List Char) : Nat :=
  cs.foldl (fun a c => a * 10 + (c.toNat - 48)) 0

/-- Python `int(s)` on a string: optional surrounding whitespace, optional
sign, one or more digits. `none` models the `ValueError` raised otherwise.
(Digit-group underscores accepted by Python are not modeled; none occur in
the dataset.) -/
def parseIntPy (s : String) : Option Int :=
  match (pyStrip s).data with
  | [] => none
  | c :: cs =>
    if c = '-' then
      if cs.isEmpty then none
      else if cs.all Char.isDigit then some (-(digitsVal cs : Int)) else none
    else if c = '+' then
      if cs.isEmpty then none
      else if cs.all Char.isDigit then some (digitsVal cs : Int) else none
    else if (c :: cs).all Char.isDigit then some (digitsVal (c :: cs) : Int)
    else none

/-- Unsigned decimal literal: `digits`, `digits.digits`, `.digits` or
`digits.` with at least one digit in total. -/
def parseFracPy (cs : List Char) : Option ℚ :=
  let ip := cs.takeWhile (fun c => c ≠ '.')
  let rest := cs.dropWhile (fun c => c ≠ '.')
  match rest with
  | [] =>
    if cs.isEmpty then none
    else if cs.all Char.isDigit then some (digitsVal cs : ℚ) else none
  | _ :: fp =>
    if ip.isEmpty && fp.isEmpty then none
    else if ip.all Char.isDigit && fp.all Char.isDigit then
      some ((digitsVal ip : ℚ) + (digitsVal fp : ℚ) / (10 : ℚ) ^ fp.length)
    else none

/-- Python `float(s)` on the decimal-literal fragment used by the dataset:
optional surrounding whitespace, optional sign, digits with an optional
decimal point. `none` models `ValueError`. (Exponent forms, `inf` and `nan`
are outside the fragment realized in the data.) -/
def parseFloatPy (s : String) : Option ℚ :=
  match (pyStrip s).data with
  | [] => none
  | '-' :: cs => (parseFracPy cs).map (fun q => -q)
  | '+' :: cs => parseFracPy cs
  | cs => parseFracPy cs

/-- Result of `parse_header_line`: the five extracted, stripped substrings. -/
structure HeaderData where
  Basin : String
  CycloneID : String
  Year : String
  Name : String
  Entries : String
deriving DecidableEq, Repr

/-- Translation of the notebook's `parse_header_line`: fixed-offset slices of
the line, each stripped. Total — Python slicing never raises. -/
def parse_header_line (line : String) : HeaderData :=
  { Basin := pyStrip (pySlice line 0 2)
    CycloneID := pyStrip (pySlice line 2 4)
    Year := pyStrip (pySlice line 4 8)
    Name := pyStrip (pySlice line 18 28)
    Entries := pyStrip (pySlice line 33 36) }

/-- Result of `parse_data_line`: the 27 extracted, stripped substrings.
Python dict keys starting with a digit (`"34NE"` …) are prefixed with `f`. -/
structure DataFields where
  Year : String
  Month : String
  Day : String
  Hours : String
  Minutes : String
  RecordID : String
  Status : String
  Latitude : String
  LatHemisphere : String
  Longitude : String
  LonHemisphere : String
  MaxWind : String
  MinPressure : String
  f34NE : String
  f34SE : String
  f34SW : String
  f34NW : String
  f50NE : String
  f50SE : String
  f50SW : String
  f50NW : String
  f64NE : String
  f64SE : String
  f64SW : String
  f64NW : String
  RadiusMaxWind : String
deriving DecidableEq, Repr

/-- Translation of the notebook's `parse_data_line`. Total. -/
def parse_data_line (line : String) : DataFields :=
  { Year := pyStrip (pySlice line 0 4)
    Month := pyStrip (pySlice line 4 6)
    Day := pyStrip (pySlice line 6 8)
    Hours := pyStrip (pySlice line 10 12)
    Minutes := pyStrip (pySlice line 12 14)
    RecordID := pyStrip (pySlice line 16 17)
    Status := pyStrip (pySlice line 19 21)
    Latitude := pyStrip (pySlice line 23 27)
    LatHemisphere := pyStrip (pySlice line 27 28)
    Longitude := pyStrip (pySlice line 30 35)
    LonHemisphere := pyStrip (pySlice line 35 36)
    MaxWind := pyStrip (pySlice line 38 41)
    MinPressure := pyStrip (pySlice line 43 47)
    f34NE := pyStrip (pySlice line 49 53)
    f34SE := pyStrip (pySlice line 55 59)
    f34SW := pyStrip (pySlice line 61 65)
    f34NW := pyStrip (pySlice line 67 71)
    f50NE := pyStrip (pySlice line 73 77)
    f50SE := pyStrip (pySlice line 79 83)
    f50SW := pyStrip (pySlice line 85 89)
    f50NW := pyStrip (pySlice line 91 95)
    f64NE := pyStrip (pySlice line 97 101)
    f64SE := pyStrip (pySlice line 103 107)
    f64SW := pyStrip (pySlice line 109 113)
    f64NW := pyStrip (pySlice line 115 119)
    RadiusMaxWind := pyStrip (pySlice line 121 125) }

/-- Translation of the notebook's `convert_lat_lon`:
`lat = float(lat) * (1 if lat_hem == 'N' else -1)` and
`lon = float(lon) * (1 if lon_hem == 'E' else -1)`.
`none` models the `ValueError` of `float` on a non-numeric magnitude; the
hemisphere characters are never validated — anything other than `'N'`
(resp. `'E'`) selects the factor `-1`. -/
def convert_lat_lon (lat lat_hem lon lon_hem : String) : Option (ℚ × ℚ) :=
  match parseFloatPy lat, parseFloatPy lon with
  | some la, some lo =>
    some (la * (if lat_hem = "N" then 1 else -1),
          lo * (if lon_hem = "E" then 1 else -1))
  | _, _ => none

/-- Header after `header['Entries'] = int(header['Entries'])`. -/
structure HeaderRec where
  Basin : String
  CycloneID : String
  Year : String
  Name : String
  Entries : Int
deriving DecidableEq, Repr

/-- One composite row appended to `data` by `parse_hurdat2`:
`combined_dict = {**header, **parsed_data}` after the latitude/longitude
fields of `parsed_data` were replaced by the converted values. Because the
dict merge lets `parsed_data` override same-named keys, `Year` holds the
data line's year substring, not the header's. -/
structure Record where
  Basin : String
  CycloneID : String
  Year : String
  Name : String
  Entries : Int
  Month : String
  Day : String
  Hours : String
  Minutes : String
  RecordID : String
  Status : String
  Latitude : ℚ
  LatHemisphere : String
  Longitude : ℚ
  LonHemisphere : String
  MaxWind : String
  MinPressure : String
  f34NE : String
  f34SE : String
  f34SW : String
  f34NW : String
  f50NE : String
  f50SE : String
  f50SW : String
  f50NW : String
  f64NE : String
  f64SE : String
  f64SW : String
  f64NW : String
  RadiusMaxWind : String
deriving DecidableEq, Repr

/-- Build the composite record `{**header, **parsed_data}` with the converted
coordinates. `Year` comes from the data line (`pd`), overriding the header's
`Year`, exactly as the Python dict merge does. -/
def mkRecord (h : HeaderRec) (pd : DataFields) (la lo : ℚ) : Record :=
  { Basin := h.Basin
    CycloneID := h.CycloneID
    Year := pd.Year
    Name := h.Name
    Entries := h.Entries
    Month := pd.Month
    Day := pd.Day
    Hours := pd.Hours
    Minutes := pd.Minutes
    RecordID := pd.RecordID
    Status := pd.Status
    Latitude := la
    LatHemisphere := pd.LatHemisphere
    Longitude := lo
    LonHemisphere := pd.LonHemisphere
    MaxWind := pd.MaxWind
    MinPressure := pd.MinPressure
    f34NE := pd.f34NE
    f34SE := pd.f34SE
    f34SW := pd.f34SW
    f34NW := pd.f34NW
    f50NE := pd.f50NE
    f50SE := pd.f50SE
    f50SW := pd.f50SW
    f50NW := pd.f50NW
    f64NE := pd.f64NE
    f64SE := pd.f64SE
    f64SW := pd.f64SW
    f64NW := pd.f64NW
    RadiusMaxWind := pd.RadiusMaxWind }

/-- Exceptions that can escape `parse_hurdat2`. -/
inductive ParseError where
  /-- `ValueError` from `int(header['Entries'])`. -/
  | invalidEntries : ParseError
  /-- `IndexError` from `lines[i]` when the declared run of data lines
  overruns the end of the input (the spec's truncated-storm failure). -/
  | truncatedStorm : ParseError
  /-- `ValueError` from `float` inside `convert_lat_lon`. -/
  | invalidFloat : ParseError
deriving DecidableEq, Repr

/-- The header dict after `header['Entries'] = int(header['Entries'])`. -/
def toHeaderRec (h : HeaderData) (n : Int) : HeaderRec :=
  { Basin := h.Basin, CycloneID := h.CycloneID, Year := h.Year,
    Name := h.Name, Entries := n }

/-- The scan loop of `parse_hurdat2`. The Python code walks one index `i`
over `lines` and only ever reads `lines[i]` before incrementing `i`, so the
loop is modeled by structural recursion on the list of remaining lines. The
second argument is the loop's control state: `none` while scanning for a
header, `some (h, k)` while the data-line `for` loop of header `h` still has
`k + 1` iterations to run. Reaching the end of input in that state is the
`IndexError` of `lines[i]`. A run of `0` declared entries (`range(0)`, and
`range(n)` for negative `n`) performs no data-line iterations. -/
def parse_go : List String → Option (HeaderRec × Nat) → List Record →
    Except ParseError (List Record)
  | [], none, acc => .ok acc
  | [], some _, _ => .error .truncatedStorm
  | l :: rest, none, acc =>
    if pyStartsWith (pyStrip l) "AL" then
      match parseIntPy (parse_header_line (pyStrip l)).Entries with
      | none => .error .invalidEntries
      | some n =>
        match n.toNat with
        | 0 => parse_go rest none acc
        | m + 1 =>
          parse_go rest (some (toHeaderRec (parse_header_line (pyStrip l)) n, m)) acc
    else
      parse_go rest none acc
  | l :: rest, some (hr, k), acc =>
    match convert_lat_lon (parse_data_line (pyStrip l)).Latitude
        (parse_data_line (pyStrip l)).LatHemisphere
        (parse_data_line (pyStrip l)).Longitude
        (parse_data_line (pyStrip l)).LonHemisphere with
    | none => .error .invalidFloat
    | some (la, lo) =>
      match k with
      | 0 =>
        parse_go rest none (acc ++ [mkRecord hr (parse_data_line (pyStrip l)) la lo])
      | k' + 1 =>
        parse_go rest (some (hr, k'))
          (acc ++ [mkRecord hr (parse_data_line (pyStrip l)) la lo])

/-- Translation of the notebook's `parse_hurdat2`, taking the file's lines
(the result of `readlines()`) as input and returning the list of composite
records (the rows of the resulting dataframe), or the first exception. -/
def parse_hurdat2 (lines : List String) : Except ParseError (List Record) :=
  parse_go lines none []

/-- Storm identity used by `test_entries_count`'s `groupby`. -/
def stormIdentity (r : Record) : String × String × String × String :=
  (r.Basin, r.CycloneID, r.Year, r.Name)

/-- Translation of the notebook's `test_entries_count`: group the records by
`(Basin, CycloneID, Year, Name)`, count each group's rows, compare with the
(deduplicated) `Entries` values of that identity, and return `True` exactly
when no group mismatches. Since every deduplicated `(identity, Entries)` pair
comes from at least one record and every record contributes its pair, the
pandas computation returns `True` iff every record's identity has a group
size equal to that record's `Entries`. -/
def test_entries_count (recs : List Record) : Bool :=
  recs.all fun r =>
    ((recs.countP fun s => decide (stormIdentity s = stormIdentity r)) : Int)
      == r.Entries

/-- Exceptions that can escape the normalization cells. -/
inductive NormError where
  /-- `ValueError` from `astype(int)` on a non-integer substring. -/
  | invalidInt : NormError
  /-- Error from `pd.to_datetime` on an impossible calendar date or time. -/
  | invalidDate : NormError
deriving DecidableEq, Repr

/-- Model of `pd.to_numeric(..., errors='coerce')` on one cell: numeric text
becomes a number, anything else (including the empty string) becomes the
missing marker `none`. The sentinel `"-999"` is numeric text, so it becomes
the number `-999`, not `none`. -/
def pdToNumeric (s : String) : Option ℚ :=
  parseFloatPy s

/-- Days in a month of the (proleptic) Gregorian calendar. -/
def daysInMonth (y m : Int) : Int :=
  if m = 2 then
    if y % 4 = 0 ∧ (y % 100 ≠ 0 ∨ y % 400 = 0) then 29 else 28
  else if m = 4 ∨ m = 6 ∨ m = 9 ∨ m = 11 then 30
  else 31

/-- Validity check performed by `pd.to_datetime` on the year/month/day/hour/
minute columns. (The nanosecond-representable year range of pandas timestamps
is not modeled; all dataset years lie far inside it.) -/
def validDate (y mo d hh mi : Int) : Bool :=
  if 1 ≤ mo ∧ mo ≤ 12 ∧ 1 ≤ d ∧ d ≤ daysInMonth y mo ∧
     0 ≤ hh ∧ hh < 24 ∧ 0 ≤ mi ∧ mi < 60 then true else false

/-- A row after the notebook's normalization cells: the `astype` casts, the
`pd.to_numeric(..., errors='coerce')` coercions, the composed `Datetime`, and
`UniqueID = df.Year.astype('string') + df.CycloneID`. The `Basin` and
`LatHemisphere` columns were dropped by the zero-variance cell in the
reference run, a dataset-level convenience pass; they carry no per-record
information used downstream. -/
structure NormRecord where
  CycloneID : String
  Year : Int
  Name : String
  Entries : Int
  Month : Int
  Day : Int
  Hours : Int
  Minutes : Int
  RecordID : String
  Status : String
  Latitude : ℚ
  Longitude : ℚ
  LonHemisphere : String
  MaxWind : Option ℚ
  MinPressure : Option ℚ
  f34NE : Option ℚ
  f34SE : Option ℚ
  f34SW : Option ℚ
  f34NW : Option ℚ
  f50NE : Option ℚ
  f50SE : Option ℚ
  f50SW : Option ℚ
  f50NW : Option ℚ
  f64NE : Option ℚ
  f64SE : Option ℚ
  f64SW : Option ℚ
  f64NW : Option ℚ
  RadiusMaxWind : Option ℚ
  Datetime : Int × Int × Int × Int × Int
  UniqueID : String
deriving DecidableEq, Repr

/-- Normalization of one composite record, translating the notebook's cells
in their execution order: integer casts (`astype(int)`, which raise on
failure), string casts (`astype('string')`, the identity — in particular the
`Status` cast performs no validation), numeric coercions
(`pd.to_numeric(..., errors='coerce')`), the `Datetime` composition
(`pd.to_datetime`, which raises on an impossible date), and
`UniqueID = str(Year) + CycloneID`. -/
def normalizeRecord (r : Record) : Except NormError NormRecord :=
  match parseIntPy r.Year, parseIntPy r.Month, parseIntPy r.Day,
      parseIntPy r.Hours, parseIntPy r.Minutes with
  | some y, some mo, some d, some hh, some mi =>
    if validDate y mo d hh mi then
      .ok { CycloneID := r.CycloneID
            Year := y
            Name := r.Name
            Entries := r.Entries
            Month := mo
            Day := d
            Hours := hh
            Minutes := mi
            RecordID := r.RecordID
            Status := r.Status
            Latitude := r.Latitude
            Longitude := r.Longitude
            LonHemisphere := r.LonHemisphere
            MaxWind := pdToNumeric r.MaxWind
            MinPressure := pdToNumeric r.MinPressure
            f34NE := pdToNumeric r.f34NE
            f34SE := pdToNumeric r.f34SE
            f34SW := pdToNumeric r.f34SW
            f34NW := pdToNumeric r.f34NW
            f50NE := pdToNumeric r.f50NE
            f50SE := pdToNumeric r.f50SE
            f50SW := pdToNumeric r.f50SW
            f50NW := pdToNumeric r.f50NW
            f64NE := pdToNumeric r.f64NE
            f64SE := pdToNumeric r.f64SE
            f64SW := pdToNumeric r.f64SW
            f64NW := pdToNumeric r.f64NW
            RadiusMaxWind := pdToNumeric r.RadiusMaxWind
            Datetime := (y, mo, d, hh, mi)
            UniqueID := toString y ++ r.CycloneID }
    else .error .invalidDate
  | _, _, _, _, _ => .error .invalidInt

/-- Column-wise pandas operations succeed or raise for the whole frame; on a
list of rows this is the monadic map of `normalizeRecord` — no row is ever
dropped, the first failing cell aborts everything. -/
def normalizeAll : List Record → Except NormError (List NormRecord)
  | [] => .ok []
  | r :: rs =>
    match normalizeRecord r with
    | .error e => .error e
    | .ok n =>
      match normalizeAll rs with
      | .error e => .error e
      | .ok ns => .ok (n :: ns)

/-- Error type of the specification's Header Line Parser (§4.1). -/
inductive HeaderSpecError where
  | malformedHeader : HeaderSpecError
deriving DecidableEq, Repr

/-- Specification version of the header parser, stated from §4.1's words for
comparison with the code's `parse_header_line`: "Fails with
`MalformedHeaderError` if the line is shorter than the maximum required
offset or if the entry-count substring is not a valid non-negative integer",
otherwise the extracted, whitespace-trimmed fields. The maximum required
offset of the header fields is 36 (end of the entry-count range). -/
def parse_header_line_spec (line : String) : Except HeaderSpecError HeaderData :=
  if line.length < 36 then .error .malformedHeader
  else
    match parseIntPy (parse_header_line line).Entries with
    | some n => if 0 ≤ n then .ok (parse_header_line line) else .error .malformedHeader
    | none => .error .malformedHeader

/-- A data line is convertible when both coordinate magnitudes parse as
floats, i.e. `convert_lat_lon` does not raise on it. -/
def dataLineConverts (l : String) : Bool :=
  (convert_lat_lon (parse_data_line (pyStrip l)).Latitude
    (parse_data_line (pyStrip l)).LatHemisphere
    (parse_data_line (pyStrip l)).Longitude
    (parse_data_line (pyStrip l)).LonHemisphere).isSome

/-! ### Concrete input lines used by the end-to-end statements

All lines follow the HURDAT2 fixed-column layout: header fields at
0–2/2–4/4–8/18–28/33–36, data fields as in `parse_data_line`. -/

/-- Header line: basin `AL`, cyclone `01`, year `1851`, name `UNNAMED`,
entry count text `0005` ending at column 35 (so columns 33–36 read `005`). -/
def hdrAL011851e5 : String := "AL011851,            UNNAMED,   0005,"

/-- Header line declaring 3 entries. -/
def hdrAL031852e3 : String := "AL031852,            UNNAMED,   0003,"

/-- Header line declaring 1 entry. -/
def hdrAL011851e1 : String := "AL011851,            UNNAMED,   0001,"

/-- Header line whose entry-count columns hold non-numeric text `XXX`. -/
def hdrALbadEntries : String := "AL011851,            UNNAMED,   XXXX,"

/-- A header-shaped line whose basin code is `EP`, not `AL`. -/
def hdrEP011949e5 : String := "EP011949,            UNNAMED,   0005,"

/-- Header line for the cross-year storm: basin `AL`, cyclone `16`,
year `1954`, name `ALICE`, 2 declared entries. -/
def hdrAL161954e2 : String := "AL161954,              ALICE,   0002,"

/-- Well-formed data line: 1851-06-25 00:00, status HU, 28.0N 94.8W. -/
def dl0000 : String := "18510625, 0000,  , HU, 28.0N,  94.8W,  80, -999, -999, -999, -999, -999, -999, -999, -999, -999, -999, -999, -999, -999, -999"

/-- Well-formed data line: same storm at 06:00. -/
def dl0600 : String := "18510625, 0600,  , HU, 28.0N,  94.8W,  80, -999, -999, -999, -999, -999, -999, -999, -999, -999, -999, -999, -999, -999, -999"

/-- Well-formed data line: same storm at 12:00. -/
def dl1200 : String := "18510625, 1200,  , HU, 28.0N,  94.8W,  80, -999, -999, -999, -999, -999, -999, -999, -999, -999, -999, -999, -999, -999, -999"

/-- Well-formed data line: same storm at 18:00. -/
def dl1800 : String := "18510625, 1800,  , HU, 28.0N,  94.8W,  80, -999, -999, -999, -999, -999, -999, -999, -999, -999, -999, -999, -999, -999, -999"

/-- Well-formed data line: same storm at 21:00. -/
def dl2100 : String := "18510625, 2100,  , HU, 28.0N,  94.8W,  80, -999, -999, -999, -999, -999, -999, -999, -999, -999, -999, -999, -999, -999, -999"

/-- The complete 6-line input of the first end-to-end scenario. -/
def scenario1851 : List String :=
  [hdrAL011851e5, dl0000, dl0600, dl1200, dl1800, dl2100]

/-- Data line whose latitude magnitude columns 23–27 hold ` 283` (no decimal
point), hemisphere `N`. -/
def dlLat283 : String := "18510625, 0000,  , HU,  283N,  94.8W,  80, -999, -999, -999, -999, -999, -999, -999, -999, -999, -999, -999, -999, -999, -999"

/-- Data line whose latitude magnitude columns 23–27 hold `28.3`. -/
def dlLat28p3 : String := "18510625, 0000,  , HU, 28.3N,  94.8W,  80, -999, -999, -999, -999, -999, -999, -999, -999, -999, -999, -999, -999, -999, -999"

/-- Data line of the cross-year storm dated 1954-12-31 18:00. -/
def dlAlice1954 : String := "19541231, 1800,  , HU, 20.0N,  80.0W,  90, -999, -999, -999, -999, -999, -999, -999, -999, -999, -999, -999, -999, -999, -999"

/-- Data line of the cross-year storm dated 1955-01-01 00:00. -/
def dlAlice1955 : String := "19550101, 0000,  , HU, 21.0N,  81.0W,  85, -999, -999, -999, -999, -999, -999, -999, -999, -999, -999, -999, -999, -999, -999"

/-- The cross-year input: one header block whose two data lines straddle the
1954/1955 calendar-year boundary. -/
def scenarioAlice : List String := [hdrAL161954e2, dlAlice1954, dlAlice1955]

/-- A well-formed EP-basin data line (for the non-AL header scenario). -/
def dlEP1949 : String := "19490611, 0000,  , TS, 20.2N, 106.3W,  45, -999, -999, -999, -999, -999, -999, -999, -999, -999, -999, -999, -999, -999, -999"

/-- A composite record with an unknown status code `ZZ` and the sentinel
text `-999` in the 34-kt NE wind-radii field; its date/time fields are
valid, so normalization succeeds on it. -/
def sampleZZ : Record :=
  { Basin := "AL", CycloneID := "01", Year := "1851", Name := "UNNAMED",
    Entries := 1, Month := "06", Day := "25", Hours := "00", Minutes := "00",
    RecordID := "", Status := "ZZ", Latitude := 28, LatHemisphere := "N",
    Longitude := -474/5, LonHemisphere := "W", MaxWind := "80",
    MinPressure := "-999", f34NE := "-999", f34SE := "-999", f34SW := "-999",
    f34NW := "-999", f50NE := "-999", f50SE := "-999", f50SW := "-999",
    f50NW := "-999", f64NE := "-999", f64SE := "-999", f64SW := "-999",
    f64NW := "-999", RadiusMaxWind := "-999" }

/-! ### Helper lemmas -/

/-- A Python slice whose start lies at or beyond the end of the string is
empty, so the stripped field is the empty string. -/
theorem pyStrip_pySlice_eq_empty (s : String) (a b : Nat) (h : s.length ≤ a) :
    pyStrip (pySlice s a b) = "" := by
  have hd : s.data.drop a = [] := List.drop_eq_nil_of_le h
  simp [pySlice, pyStrip, hd]

/-- A line that does not start with `AL` (after stripping) is skipped by the
scan loop. -/
theorem parse_go_skip (l : String) (rest : List String) (acc : List Record)
    (h : pyStartsWith (pyStrip l) "AL" = false) :
    parse_go (l :: rest) none acc = parse_go rest none acc := by
  simp [parse_go, h]

/-- If fewer lines remain than the data-line loop still has iterations, and
every remaining line has convertible coordinates, the loop runs off the end
of the input: the `IndexError` modeled as `truncatedStorm`. -/
theorem parse_go_run_truncated :
    ∀ (rest : List String) (hr : HeaderRec) (k : Nat) (acc : List Record),
      rest.length ≤ k → (∀ l ∈ rest, dataLineConverts l = true) →
      parse_go rest (some (hr, k)) acc = .error .truncatedStorm := by
  intro rest
  induction rest with
  | nil => intro hr k acc _ _; rfl
  | cons l rest ih =>
    intro hr k acc hlen hwf
    have hl : dataLineConverts l = true := hwf l (List.mem_cons_self _ _)
    unfold dataLineConverts at hl
    rcases hconv : convert_lat_lon (parse_data_line (pyStrip l)).Latitude
        (parse_data_line (pyStrip l)).LatHemisphere
        (parse_data_line (pyStrip l)).Longitude
        (parse_data_line (pyStrip l)).LonHemisphere with _ | ⟨la, lo⟩
    · rw [hconv] at hl
      simp at hl
    · cases k with
      | zero => simp at hlen
      | succ k' =>
        have step : parse_go (l :: rest) (some (hr, k' + 1)) acc =
            parse_go rest (some (hr, k'))
              (acc ++ [mkRecord hr (parse_data_line (pyStrip l)) la lo]) := by
          simp [parse_go, hconv]
        rw [step]
        have hlen' : rest.length ≤ k' := by
          simp [List.length_cons] at hlen
          omega
        exact ih hr k' _ hlen' (fun x hx => hwf x (List.mem_cons_of_mem _ hx))

/-- Length preservation of normalization: on success the output has one row
per input row. -/
theorem normalizeAll_length (rs : List Record) :
    ((normalizeAll rs).toOption).map List.length =
      ((normalizeAll rs).toOption).map (fun _ => rs.length) := by
  induction rs with
  | nil => rfl
  | cons r rs ih =>
    cases hr : normalizeRecord r with
    | error e => simp [normalizeAll, hr, Except.toOption]
    | ok n =>
      cases hs : normalizeAll rs with
      | error e => simp [normalizeAll, hr, hs, Except.toOption]
      | ok ns =>
        simp [normalizeAll, hr, hs, Except.toOption] at ih ⊢
        omega

/-- Field contents of a successful normalization: the status string passes
through unchanged and the wind-radii coercion is `pdToNumeric` of the raw
text. -/
theorem normalizeRecord_ok_fields {r : Record} {n : NormRecord}
    (h : normalizeRecord r = .ok n) :
    n.Status = r.Status ∧ n.f34NE = pdToNumeric r.f34NE := by
  unfold normalizeRecord at h
  split at h
  · split at h
    · cases h
      exact ⟨rfl, rfl⟩
    · cases h
  all_goals cases h

/-! ### Claim theorems -/

/-- C1 counterexample: on the scenario input (header `AL`/`01`/`1851`/
`UNNAMED`/`0005` followed by five well-formed data lines) the first emitted
record's `UniqueID` after normalization is `"185101"` — the concatenation
`str(Year) + CycloneID` computed by the notebook — and not `"1851AL01"` as
the claim states. -/
theorem c1_counterexample :
    (((parse_hurdat2 scenario1851).toOption.bind
        (fun rs => (normalizeAll rs).toOption)).bind List.head?).map
      NormRecord.UniqueID = some "185101" ∧
    ("185101" : String) ≠ "1851AL01" := by
  refine ⟨by rfl, by decide⟩

/-- C1 amended: the assembler emits exactly 5 composite records on the
scenario input, every one of them normalizes to `UniqueID = "185101"`
(year concatenated with cyclone number, no basin code), and
`test_entries_count` reports no mismatch (returns `true`). -/
theorem c1_scenario :
    (parse_hurdat2 scenario1851).toOption.map List.length = some 5 ∧
    ((parse_hurdat2 scenario1851).toOption.bind
        (fun rs => (normalizeAll rs).toOption)).map
      (List.map NormRecord.UniqueID) =
      some ["185101", "185101", "185101", "185101", "185101"] ∧
    (parse_hurdat2 scenario1851).toOption.map test_entries_count = some true := by
  refine ⟨by rfl, by rfl, by rfl⟩

/-- C2 counterexample: `hdrEP011949e5` parses under the header line shape
(its entry-count field is the valid integer 5) and its basin code is `EP`,
yet the assembler run on it followed by a well-formed data line emits no
record at all — the line is skipped, not treated as a header, because
detection is the hard-coded test `line.startswith('AL')`. -/
theorem c2_counterexample :
    parseIntPy (parse_header_line (pyStrip hdrEP011949e5)).Entries = some 5 ∧
    pySlice (pyStrip hdrEP011949e5) 0 2 = "EP" ∧
    parse_hurdat2 [hdrEP011949e5, dlEP1949] = .ok [] := by
  refine ⟨by rfl, by rfl, by rfl⟩

/-- C2 amended: header detection is by the literal prefix `AL`, not by
structural shape: any line that (after stripping) does not start with `AL`
is skipped by the assembler regardless of its shape, and any line that does
start with `AL` is committed to as a header — if its entry-count field is
not a valid integer the assembler fails there. -/
theorem c2_header_detection :
    (∀ (l : String) (rest : List String) (acc : List Record),
        pyStartsWith (pyStrip l) "AL" = false →
        parse_go (l :: rest) none acc = parse_go rest none acc) ∧
    parse_hurdat2 ["ALGARBAGE"] = .error .invalidEntries := by
  refine ⟨fun l rest acc h => parse_go_skip l rest acc h, by rfl⟩

/-- C2 witness: the skip rule applied to the concrete well-formed `EP`
header line. -/
theorem c2_header_detection_witness :
    parse_go [hdrEP011949e5] none [] = parse_go ([] : List String) none [] :=
  c2_header_detection.1 hdrEP011949e5 [] [] (by decide)

/-- C3 counterexample: hemisphere characters outside `{N, S}` (latitude) and
`{E, W}` (longitude) are not rejected: `convert_lat_lon` maps them to the
negated magnitude exactly as it maps `S`/`W`. -/
theorem c3_counterexample :
    convert_lat_lon "28.0" "X" "94.8" "E" = some (-28, 474 / 5) ∧
    convert_lat_lon "28.0" "N" "94.8" "Q" = some (28, -(474 / 5)) := by
  constructor
  · with_unfolding_all rfl
  · with_unfolding_all rfl

/-- C3 amended: the converter returns the positive magnitude exactly for the
hemisphere string `"N"` (latitude) and `"E"` (longitude) and the negated
magnitude for every other hemisphere string — including `"S"`/`"W"` but also
any invalid character; no input is rejected on hemisphere grounds. -/
theorem c3_sign_convention (lat_hem lon_hem : String) :
    convert_lat_lon "28.0" lat_hem "94.8" lon_hem =
      some ((if lat_hem = "N" then 28 else -28),
            (if lon_hem = "E" then 474 / 5 else -(474 / 5))) := by
  have h1 : parseFloatPy "28.0" = some 28 := by with_unfolding_all rfl
  have h2 : parseFloatPy "94.8" = some (474 / 5) := by with_unfolding_all rfl
  simp only [convert_lat_lon, h1, h2]
  by_cases hN : lat_hem = "N" <;> by_cases hE : lon_hem = "E" <;>
    simp [hN, hE]

/-- C4 confirmed: if the first line is recognized as a header declaring `n`
entries but fewer than `n` lines (all of them well-formed data lines) remain
before end-of-input, the assembler fails with the truncation error (the
`IndexError` of reading past the last line). -/
theorem c4_truncated (h : String) (rest : List String) (n : Int)
    (hAL : pyStartsWith (pyStrip h) "AL" = true)
    (hn : parseIntPy (parse_header_line (pyStrip h)).Entries = some n)
    (hlen : rest.length < n.toNat)
    (hwf : ∀ l ∈ rest, dataLineConverts l = true) :
    parse_hurdat2 (h :: rest) = .error .truncatedStorm := by
  unfold parse_hurdat2
  rcases hm : n.toNat with _ | m
  · omega
  · have step : parse_go (h :: rest) none [] =
        parse_go rest (some (toHeaderRec (parse_header_line (pyStrip h)) n, m)) [] := by
      simp [parse_go, hAL, hn, hm]
    rw [step]
    exact parse_go_run_truncated rest _ m [] (by omega) hwf

/-- C4 witness: a header declaring `0003` followed by only 2 well-formed
data lines fails with the truncation error. -/
theorem c4_truncated_witness :
    parse_hurdat2 [hdrAL031852e3, dl0000, dl0600] = .error .truncatedStorm :=
  c4_truncated hdrAL031852e3 [dl0000, dl0600] 3 (by decide) (by decide)
    (by decide) (by decide)

/-- C5 counterexample: a data line whose latitude magnitude field holds
`283` (hemisphere `N`) yields an emitted record with latitude `283.0`, not
`28.3` — `convert_lat_lon` applies `float` to the literal text and never
rescales. -/
theorem c5_counterexample :
    ((parse_hurdat2 [hdrAL011851e1, dlLat283]).toOption.bind List.head?).map
      Record.Latitude = some 283 ∧
    (283 : ℚ) ≠ 283 / 10 := by
  constructor
  · with_unfolding_all rfl
  · norm_num

/-- C5 amended: the latitude of an emitted record is the `float` of the
literal magnitude text: the field text `28.3` (as the HURDAT2 format writes
tenths, with an explicit decimal point) yields latitude `28.3`, while field
text `283` would yield `283.0`. -/
theorem c5_latitude_literal :
    ((parse_hurdat2 [hdrAL011851e1, dlLat28p3]).toOption.bind List.head?).map
      Record.Latitude = some (283 / 10) ∧
    ((parse_hurdat2 [hdrAL011851e1, dlLat283]).toOption.bind List.head?).map
      Record.Latitude = some 283 := by
  constructor
  · with_unfolding_all rfl
  · with_unfolding_all rfl

/-- C6 counterexample: on the empty string — shorter than the maximum
required offset 36 — the spec's header parser fails with
`MalformedHeaderError`, but the code's `parse_header_line` does not fail: it
returns a header record with every field empty. -/
theorem c6_counterexample :
    parse_header_line_spec "" = .error .malformedHeader ∧
    parse_header_line "" = ⟨"", "", "", "", ""⟩ ∧
    ("" : String).length < 36 := by
  refine ⟨by rfl, by rfl, by decide⟩

/-- C6 amended: `parse_header_line` itself is total — a short line yields
empty fields instead of an error — and the invalid-entry-count failure
happens in the record assembler instead: when a recognized (`AL`-prefixed)
header line's entry-count field is not a valid integer, `parse_hurdat2`
fails with the entry-count conversion error. -/
theorem c6_header_parsing :
    parse_header_line "" = ⟨"", "", "", "", ""⟩ ∧
    (∀ (l : String) (rest : List String),
        pyStartsWith (pyStrip l) "AL" = true →
        parseIntPy (parse_header_line (pyStrip l)).Entries = none →
        parse_hurdat2 (l :: rest) = .error .invalidEntries) := by
  refine ⟨by rfl, fun l rest h1 h2 => ?_⟩
  unfold parse_hurdat2
  simp [parse_go, h1, h2]

/-- C6 witness: an `AL`-prefixed header line whose entry-count columns hold
`XXX` makes the assembler fail with the entry-count conversion error. -/
theorem c6_header_parsing_witness :
    parse_hurdat2 [hdrALbadEntries] = .error .invalidEntries :=
  c6_header_parsing.2 hdrALbadEntries [] (by decide) (by decide)

/-- C7 counterexample: the status cast is `astype('string')`, which performs
no validation: a record whose status code `ZZ` lies outside the nine known
codes normalizes successfully and keeps `ZZ`, instead of failing with
`UnknownStatusError`. -/
theorem c7_counterexample :
    (normalizeRecord sampleZZ).toOption.map NormRecord.Status = some "ZZ" ∧
    "ZZ" ∉ ["TD", "TS", "HU", "EX", "SD", "SS", "LO", "WV", "DB"] := by
  refine ⟨by rfl, by decide⟩

/-- C7 amended: the normalizer's status mapping is the identity on every
status string — the nine codes TD, TS, HU, EX, SD, SS, LO, WV, DB are the
values observed in the reference dataset, not an enforced domain, and no
code is ever rejected. -/
theorem c7_status_passthrough (r : Record) :
    ((normalizeRecord r).toOption).map NormRecord.Status =
      ((normalizeRecord r).toOption).map (fun _ => r.Status) := by
  cases h : normalizeRecord r with
  | error e => simp [Except.toOption]
  | ok n => simp [Except.toOption, (normalizeRecord_ok_fields h).1]

/-- C8 counterexample: the numeric coercion of a wind-radii field holding
the sentinel text `-999` produces the number `-999`, not the missing
marker. -/
theorem c8_counterexample :
    (normalizeRecord sampleZZ).toOption.map NormRecord.f34NE =
      some (some (-999)) ∧
    some (-999 : ℚ) ≠ (none : Option ℚ) := by
  constructor
  · with_unfolding_all rfl
  · simp

/-- C8 amended: `pd.to_numeric(..., errors='coerce')` maps every
non-numeric substring (including the empty string) to the missing marker and
drops no row — on success normalization is row-for-row — but the designated
sentinel `-999` is numeric text and is kept as the number `-999`, not mapped
to missing. -/
theorem c8_numeric_coercion :
    pdToNumeric "" = none ∧
    pdToNumeric "abc" = none ∧
    pdToNumeric "-999" = some (-999) ∧
    (∀ r : Record, ((normalizeRecord r).toOption).map NormRecord.f34NE =
        ((normalizeRecord r).toOption).map (fun _ => pdToNumeric r.f34NE)) ∧
    (∀ rs : List Record, ((normalizeAll rs).toOption).map List.length =
        ((normalizeAll rs).toOption).map (fun _ => rs.length)) := by
  refine ⟨by rfl, by rfl, by with_unfolding_all rfl, fun r => ?_,
    fun rs => normalizeAll_length rs⟩
  cases h : normalizeRecord r with
  | error e => simp [Except.toOption]
  | ok n => simp [Except.toOption, (normalizeRecord_ok_fields h).2]

/-- C9 confirmed: the dict merge `{**header, **parsed_data}` lets the data
line's fields override the header's, so every composite record's `Year` is
the data line's year substring (columns 0–4); on the concrete cross-year
block (header year 1954, data lines dated 1954-12-31 and 1955-01-01) the two
emitted records carry the two different years and normalize to two different
`UniqueID`s under the same header. -/
theorem c9_year_from_data_line :
    (∀ (h : HeaderRec) (pd : DataFields) (la lo : ℚ),
        (mkRecord h pd la lo).Year = pd.Year) ∧
    (parse_hurdat2 scenarioAlice).toOption.map (List.map Record.Year) =
      some ["1954", "1955"] ∧
    (parse_header_line (pyStrip hdrAL161954e2)).Year = "1954" ∧
    ((parse_hurdat2 scenarioAlice).toOption.bind
        (fun rs => (normalizeAll rs).toOption)).map
      (List.map NormRecord.UniqueID) = some ["195416", "195516"] ∧
    ("195416" : String) ≠ "195516" := by
  refine ⟨fun _ _ _ _ => rfl, by rfl, by rfl, by rfl, by decide⟩

/-- C10 confirmed: both line parsers are total — on the empty string every
extracted field is empty, and in general any field whose character range
lies at or beyond the end of the input is extracted as the empty string. -/
theorem c10_parsers_total :
    parse_header_line "" = ⟨"", "", "", "", ""⟩ ∧
    parse_data_line "" = ⟨"", "", "", "", "", "", "", "", "", "", "", "", "",
      "", "", "", "", "", "", "", "", "", "", "", "", ""⟩ ∧
    (∀ line : String, line.length ≤ 23 →
        (parse_data_line line).Latitude = "" ∧
        (parse_data_line line).RadiusMaxWind = "" ∧
        (parse_header_line line).Entries = "") := by
  refine ⟨by rfl, by rfl, fun line h => ?_⟩
  refine ⟨?_, ?_, ?_⟩
  · exact pyStrip_pySlice_eq_empty line 23 27 h
  · exact pyStrip_pySlice_eq_empty line 121 125 (by omega)
  · exact pyStrip_pySlice_eq_empty line 33 36 (by omega)

/-- C10 witness: a concrete 8-character line (shorter than the largest field
offset) parses with the out-of-range fields empty. -/
theorem c10_parsers_total_witness :
    (parse_data_line "18510625").Latitude = "" ∧
    (parse_data_line "18510625").RadiusMaxWind = "" ∧
    (parse_header_line "18510625").Entries = "" :=
  c10_parsers_total.2.2 "18510625" (by decide)

end Hurdat
